import Mathlib

/-!
Shallow embedding of `src/improve-batch-process.py` (repository
`records-of-the-grand-historian`).

The script's only computation is in `improved_batch_workflow` (lines 31-32):

    full_batches = total_sentences // batch_size
    remainder = total_sentences % batch_size

Python's `//` is flooring integer division and `%` is the matching modulo
(the remainder has the sign of the divisor), which are exactly `Int.fdiv`
and `Int.fmod`; both raise `ZeroDivisionError` when the divisor is `0`.
Fallible Python code is embedded as `Except PyError`.

The surrounding function prints progress messages and loads the chapter
descriptor from a JSON file; its effects are embedded by threading an
explicit `World` (a read-only file system plus an stdout line buffer).

A file-level fact that matters for the CLI claims: line 37 of the script is
exactly `    print("` — a double quote opens a single-line string literal
that is never closed on that physical line (and the line does not end in a
backslash continuation), so CPython rejects the whole file with a
`SyntaxError` before `__main__` can run.  The definitions below embed the
runtime semantics the statements would have; the lexical defect itself is
recorded by `line37` / `doubleQuotes` below.
-/

/-- Error outcomes a run of the Python code can end in.  `invalidArgument`
is the error kind named by the specification; the source never raises it,
it is included so that statements about it can be expressed. -/
inductive PyError where
  | zeroDivisionError
  | invalidArgument
  | fileNotFoundError
  deriving DecidableEq, Repr

/-- Lines 31-32 of `improved_batch_workflow`: the batch-plan computation.
`total_sentences // batch_size` and `total_sentences % batch_size` with
Python semantics: flooring division and matching modulo (`Int.fdiv`,
`Int.fmod`), raising `ZeroDivisionError` when `batch_size == 0`.  The
result pair is `(full_batches, remainder)`. -/
def batch_plan (total_sentences batch_size : Int) : Except PyError (Int × Int) :=
  if batch_size = 0 then Except.error PyError.zeroDivisionError
  else Except.ok (Int.fdiv total_sentences batch_size, Int.fmod total_sentences batch_size)

/-- The `meta` object of a chapter descriptor (`data['meta']`); the script
reads its `sentenceCount` field (line 27). -/
structure ChapterMeta where
  sentenceCount : Int
  deriving DecidableEq, Repr

/-- A parsed chapter descriptor (`data = json.load(f)`, line 25). -/
structure ChapterData where
  meta : ChapterMeta
  deriving DecidableEq, Repr

/-- The state the script touches: a file system mapping paths to parsed
chapter descriptors (read-only in the script) and the stdout line buffer. -/
structure World where
  fs : String → Option ChapterData
  stdout : List String

/-- `print(line)`: appends a line to stdout and leaves the file system
untouched. -/
def pyPrint (w : World) (line : String) : World :=
  ⟨w.fs, w.stdout ++ [line]⟩

/-- `improved_batch_workflow(chapter_file, batch_size)` (lines 15-34):
prints the banner lines, loads the chapter descriptor, reads
`data['meta']['sentenceCount']`, computes the batch plan and prints it.
Returns the updated world and the outcome.  The print block at lines 36-42
lies past the unterminated string literal of line 37 (see `line37`) and
adds nothing to the computation; it is not modelled. -/
def improved_batch_workflow (w : World) (chapter_file : String) (batch_size : Int) :
    World × Except PyError (Int × Int) :=
  let w1 := pyPrint w ("🎯 Starting improved translation workflow for " ++ chapter_file)
  let w2 := pyPrint w1 ("📏 Batch size: " ++ toString batch_size ++ " sentences")
  let w3 := pyPrint w2 ("📖 Pre-reading phase...")
  match w3.fs chapter_file with
  | none => (w3, Except.error PyError.fileNotFoundError)
  | some data =>
    let total_sentences := data.meta.sentenceCount
    let w4 := pyPrint w3 ("📊 Chapter has " ++ toString total_sentences ++ " sentences")
    match batch_plan total_sentences batch_size with
    | Except.error e => (w4, Except.error e)
    | Except.ok qr =>
      let w5 := pyPrint w4 ("🔢 Will create " ++ toString qr.1 ++ " full batches + " ++
        toString qr.2 ++ " in final batch")
      (w5, Except.ok qr)

/-- One decimal digit, as accepted by Python's `int(...)`. -/
def py_digit (c : Char) : Option Nat :=
  if c.isDigit then some (c.toNat - 48) else none

/-- The digits of a Python integer literal; empty input is a `ValueError`
(`none`). -/
def py_digits : List Char → Option Nat
  | [] => none
  | cs => cs.foldlM (fun acc c => (py_digit c).map (fun d => acc * 10 + d)) 0

/-- Python's built-in `int(s)` on the fragment of inputs the CLI cares
about: an optional sign followed by decimal digits; anything else raises
`ValueError` (`none`). -/
def py_int (s : String) : Option Int :=
  match s.toList with
  | '-' :: cs => (py_digits cs).map (fun n => -(n : Int))
  | '+' :: cs => (py_digits cs).map (fun n => (n : Int))
  | cs => (py_digits cs).map (fun n => (n : Int))

/-- The `__main__` block (lines 44-51): with fewer than two argv entries the
script exits 1 without invoking the workflow (`none`); otherwise
`chapter_file = sys.argv[1]` and
`batch_size = int(sys.argv[2]) if len(sys.argv) > 2 else 15`, and the
workflow is invoked with that pair (`some`).  A `ValueError` from `int`
aborts before any invocation (`none`). -/
def main_call (argv : List String) : Option (String × Int) :=
  match argv with
  | _prog :: chapter_file :: rest =>
    match rest with
    | [] => some (chapter_file, 15)
    | a :: _ => Option.map (fun b => (chapter_file, b)) (py_int a)
  | _ => none

/-- The exact text of line 37 of `src/improve-batch-process.py`. -/
def line37 : String := "    print(\""

/-- Number of double-quote characters on a line.  A physical line outside
any triple-quoted string whose double quotes cannot be paired (odd count)
and that does not end in a backslash continuation leaves a single-line
string literal unterminated, which CPython rejects at compile time. -/
def doubleQuotes (s : String) : Nat :=
  s.toList.countP (fun c => c = '"')

/-! ## Helper lemmas -/

theorem batch_plan_eq_ok (s b : Int) (h : b ≠ 0) :
    batch_plan s b = Except.ok (Int.fdiv s b, Int.fmod s b) := by
  simp [batch_plan, h]

theorem fdiv_mul_add_fmod_eq (s b : Int) : Int.fdiv s b * b + Int.fmod s b = s := by
  have h := Int.fdiv_add_fmod s b
  linarith

theorem improved_batch_workflow_fs (w : World) (f : String) (b : Int) :
    (improved_batch_workflow w f b).1.fs = w.fs := by
  unfold improved_batch_workflow
  simp only [pyPrint]
  cases h : w.fs f with
  | none => simp [h]
  | some data =>
    cases h2 : batch_plan data.meta.sentenceCount b with
    | error e => simp [h, h2]
    | ok qr => simp [h, h2]

theorem improved_batch_workflow_snd (w : World) (f : String) (b : Int) :
    (improved_batch_workflow w f b).2 =
      (match w.fs f with
       | none => Except.error PyError.fileNotFoundError
       | some data => batch_plan data.meta.sentenceCount b) := by
  unfold improved_batch_workflow
  simp only [pyPrint]
  cases h : w.fs f with
  | none => simp [h]
  | some data =>
    cases h2 : batch_plan data.meta.sentenceCount b with
    | error e => simp [h, h2]
    | ok qr => simp [h, h2]

/-! ## Claim theorems -/

/-- Claim C1: for every `sentenceCount ≥ 0` and `batchSize ≥ 1`, the plan
computed from `(sentenceCount, batchSize)` satisfies
`fullBatchCount * batchSize + remainder = sentenceCount` and
`0 ≤ remainder < batchSize`. -/
theorem batch_plan_invariant (s b : Int) (_hs : 0 ≤ s) (hb : 1 ≤ b) :
    batch_plan s b = Except.ok (Int.fdiv s b, Int.fmod s b) ∧
    Int.fdiv s b * b + Int.fmod s b = s ∧
    0 ≤ Int.fmod s b ∧ Int.fmod s b < b := by
  have hb0 : (0 : Int) < b := by omega
  exact ⟨batch_plan_eq_ok s b (by omega), fdiv_mul_add_fmod_eq s b,
    Int.fmod_nonneg' s hb0, Int.fmod_lt_of_pos s hb0⟩

/-- Claim C1 witness: the invariant instantiated at `(100, 15)`. -/
theorem batch_plan_invariant_witness :
    batch_plan 100 15 = Except.ok (Int.fdiv 100 15, Int.fmod 100 15) ∧
    Int.fdiv 100 15 * 15 + Int.fmod 100 15 = 100 ∧
    0 ≤ Int.fmod 100 15 ∧ Int.fmod 100 15 < 15 :=
  batch_plan_invariant 100 15 (by decide) (by decide)

/-- Claim C2 counterexample: at the spec's own example input `plan(10, 0)`
the computation fails with `ZeroDivisionError`, not `InvalidArgument`. -/
theorem batch_plan_ten_zero_counterexample :
    batch_plan 10 0 = Except.error PyError.zeroDivisionError ∧
    batch_plan 10 0 ≠ Except.error PyError.invalidArgument :=
  ⟨rfl, by simp [batch_plan]⟩

/-- Claim C2 (amended): for `batchSize ≤ 0` the computation never fails with
`InvalidArgument`: at `batchSize = 0` it fails with `ZeroDivisionError`, and
for `batchSize < 0` it succeeds, returning the floor-division plan. -/
theorem batch_plan_nonpos_batch (s b : Int) (_hb : b ≤ 0) :
    batch_plan s b ≠ Except.error PyError.invalidArgument ∧
    (b = 0 → batch_plan s b = Except.error PyError.zeroDivisionError) ∧
    (b < 0 → batch_plan s b = Except.ok (Int.fdiv s b, Int.fmod s b)) := by
  by_cases h : b = 0
  · subst h
    exact ⟨by simp [batch_plan], fun _ => by simp [batch_plan], fun hlt => absurd hlt (by omega)⟩
  · refine ⟨?_, fun he => absurd he h, fun _ => batch_plan_eq_ok s b h⟩
    rw [batch_plan_eq_ok s b h]
    simp

/-- Claim C2 (amended) witness: instantiated at `(10, 0)` and `(7, -3)`. -/
theorem batch_plan_nonpos_batch_witness :
    batch_plan 10 0 = Except.error PyError.zeroDivisionError ∧
    batch_plan 7 (-3) = Except.ok (Int.fdiv 7 (-3), Int.fmod 7 (-3)) :=
  ⟨(batch_plan_nonpos_batch 10 0 (by decide)).2.1 rfl,
   (batch_plan_nonpos_batch 7 (-3) (by decide)).2.2 (by decide)⟩

/-- Claim C3 counterexample: at `sentenceCount = -1`, `batchSize = 15` the
computation does not fail with `InvalidArgument`; it succeeds and returns
the Python floor-division plan `(-1, 14)`. -/
theorem batch_plan_neg_one_counterexample :
    batch_plan (-1) 15 = Except.ok (-1, 14) ∧
    batch_plan (-1) 15 ≠ Except.error PyError.invalidArgument :=
  ⟨rfl, by simp [batch_plan]⟩

/-- Claim C3 (amended): for `batchSize ≥ 1` and `sentenceCount < 0` the
computation does not fail at all (no `InvalidArgument` validation exists);
it returns the floor-division plan. -/
theorem batch_plan_neg_count_no_error (s b : Int) (_hs : s < 0) (hb : 1 ≤ b) :
    batch_plan s b = Except.ok (Int.fdiv s b, Int.fmod s b) ∧
    ∀ e, batch_plan s b ≠ Except.error e := by
  have h := batch_plan_eq_ok s b (by omega)
  refine ⟨h, fun e => ?_⟩
  rw [h]
  simp

/-- Claim C3 (amended) witness: instantiated at `(-1, 15)`. -/
theorem batch_plan_neg_count_no_error_witness :
    batch_plan (-1) 15 ≠ Except.error PyError.invalidArgument :=
  (batch_plan_neg_count_no_error (-1) 15 (by decide) (by decide)).2 PyError.invalidArgument

/-- Claim C4: for `sentenceCount ≥ 0` and `batchSize ≥ 1`, the computed
`full_batches` equals the rational floor of `sentenceCount / batchSize` and
the computed `remainder` equals `sentenceCount mod batchSize`. -/
theorem batch_plan_floor_mod (s b : Int) (_hs : 0 ≤ s) (hb : 1 ≤ b) :
    batch_plan s b = Except.ok (⌊(s : ℚ) / (b : ℚ)⌋, s % b) := by
  have hb0 : (0 : Int) < b := by omega
  have hfl : Int.fdiv s b = ⌊(s : ℚ) / (b : ℚ)⌋ := by
    have hbn : ((b.toNat : ℤ)) = b := Int.toNat_of_nonneg (le_of_lt hb0)
    have h1 : ⌊((s : ℚ)) / ((b.toNat : ℕ) : ℚ)⌋ = s / ((b.toNat : ℤ)) :=
      Rat.floor_intCast_div_natCast s b.toNat
    have h2 : Int.fdiv s b = s / b := Int.fdiv_eq_ediv s (le_of_lt hb0)
    rw [h2, ← hbn, ← h1]
    norm_cast
  have hm : Int.fmod s b = s % b := Int.fmod_eq_emod s (le_of_lt hb0)
  rw [batch_plan_eq_ok s b (by omega), hfl, hm]

/-- Claim C4 witness: instantiated at `(100, 15)`. -/
theorem batch_plan_floor_mod_witness :
    batch_plan 100 15 = Except.ok (⌊(100 : ℚ) / (15 : ℚ)⌋, 100 % 15) :=
  batch_plan_floor_mod 100 15 (by decide) (by decide)

/-- Claim C5: the plan computation is deterministic and idempotent — calls
with identical `(sentenceCount, batchSize)` inputs yield structurally equal
plans — and it has no side effect on any state: running the workflow leaves
the file system untouched, and re-running it on the resulting world yields
a structurally equal plan outcome. -/
theorem batch_plan_deterministic_idempotent :
    (∀ s₁ b₁ s₂ b₂ : Int, s₁ = s₂ → b₁ = b₂ → batch_plan s₁ b₁ = batch_plan s₂ b₂) ∧
    (∀ (w : World) (f : String) (b : Int),
      (improved_batch_workflow w f b).1.fs = w.fs ∧
      (improved_batch_workflow ((improved_batch_workflow w f b).1) f b).2 =
        (improved_batch_workflow w f b).2) := by
  refine ⟨fun s₁ b₁ s₂ b₂ hs hb => by rw [hs, hb], fun w f b => ⟨improved_batch_workflow_fs w f b, ?_⟩⟩
  rw [improved_batch_workflow_snd, improved_batch_workflow_snd, improved_batch_workflow_fs]

/-- Claim C5 witness: determinism instantiated at `(100, 15)`. -/
theorem batch_plan_deterministic_idempotent_witness :
    batch_plan 100 15 = batch_plan 100 15 :=
  batch_plan_deterministic_idempotent.1 100 15 100 15 rfl rfl

/-- Claim C6: the spec's concrete cases: `plan(100, 15) = (6, 10)`,
`plan(45, 15) = (3, 0)`, `plan(0, 15) = (0, 0)`, `plan(7, 15) = (0, 7)`. -/
theorem batch_plan_concrete_cases :
    batch_plan 100 15 = Except.ok (6, 10) ∧
    batch_plan 45 15 = Except.ok (3, 0) ∧
    batch_plan 0 15 = Except.ok (0, 0) ∧
    batch_plan 7 15 = Except.ok (0, 7) :=
  ⟨rfl, rfl, rfl, rfl⟩

/-- Claim C7 (code-bug evidence): line 37 of the script carries an odd
number of double quotes and itself ends in the opening quote, not in a
backslash continuation, so the single-line string literal it opens is
unterminated and CPython rejects the file at compile time — every run of
the script exits non-zero, with or without a document reference. -/
theorem line37_unterminated_string :
    doubleQuotes line37 = 1 ∧ line37.toList.getLast? = some '"' :=
  ⟨rfl, rfl⟩

/-- Claim C8: the `__main__` wiring passes `batchSize = 15` when no
override argument is given, and the parsed override value when one is. -/
theorem main_call_default_and_override :
    (∀ prog file : String, main_call [prog, file] = some (file, 15)) ∧
    (∀ (prog file a : String) (rest : List String) (b : Int),
      py_int a = some b → main_call (prog :: file :: a :: rest) = some (file, b)) := by
  refine ⟨fun prog file => rfl, fun prog file a rest b h => ?_⟩
  simp [main_call, h]

/-- Claim C8 witness: no override passes 15; override `"20"` passes 20. -/
theorem main_call_default_and_override_witness :
    main_call [("python"), ("chapter.json")] = some (("chapter.json"), 15) ∧
    main_call [("python"), ("chapter.json"), ("20")] = some (("chapter.json"), 20) :=
  ⟨main_call_default_and_override.1 ("python") ("chapter.json"),
   main_call_default_and_override.2 ("python") ("chapter.json") ("20") [] 20 rfl⟩

/-- Claim C9: the computation is unguarded — at `batchSize = 0` it raises
`ZeroDivisionError` (never `InvalidArgument`) for every `sentenceCount`,
and under the precondition `batchSize ≥ 1` the error branch is unreachable:
the computation always returns a plan. -/
theorem batch_plan_unguarded (s b : Int) :
    (b = 0 → batch_plan s b = Except.error PyError.zeroDivisionError ∧
      batch_plan s b ≠ Except.error PyError.invalidArgument) ∧
    (1 ≤ b → batch_plan s b = Except.ok (Int.fdiv s b, Int.fmod s b)) := by
  constructor
  · rintro rfl
    exact ⟨by simp [batch_plan], by simp [batch_plan]⟩
  · intro hb
    exact batch_plan_eq_ok s b (by omega)

/-- Claim C9 witness: instantiated at `(10, 0)` and `(10, 15)`. -/
theorem batch_plan_unguarded_witness :
    batch_plan 10 0 = Except.error PyError.zeroDivisionError ∧
    batch_plan 10 15 = Except.ok (Int.fdiv 10 15, Int.fmod 10 15) :=
  ⟨((batch_plan_unguarded 10 0).1 rfl).1, (batch_plan_unguarded 10 15).2 (by decide)⟩

/-- Claim C10: for every integer `sentenceCount` (negative included) and
every `batchSize ≥ 1` the computation succeeds without raising, and under
Python floor-division semantics the results satisfy
`fullBatchCount * batchSize + remainder = sentenceCount` with
`0 ≤ remainder < batchSize`. -/
theorem batch_plan_total_int (s b : Int) (hb : 1 ≤ b) :
    batch_plan s b = Except.ok (Int.fdiv s b, Int.fmod s b) ∧
    Int.fdiv s b * b + Int.fmod s b = s ∧
    0 ≤ Int.fmod s b ∧ Int.fmod s b < b := by
  have hb0 : (0 : Int) < b := by omega
  exact ⟨batch_plan_eq_ok s b (by omega), fdiv_mul_add_fmod_eq s b,
    Int.fmod_nonneg' s hb0, Int.fmod_lt_of_pos s hb0⟩

/-- Claim C10 witness: at `sentenceCount = -1`, `batchSize = 15` the plan
is `fullBatchCount = -1`, `remainder = 14`, and the invariant holds. -/
theorem batch_plan_total_int_witness :
    batch_plan (-1) 15 = Except.ok (-1, 14) ∧ (-1) * 15 + 14 = (-1 : Int) :=
  ⟨(batch_plan_total_int (-1) 15 (by decide)).1, by decide⟩
